import Mathlib

/-!
Verification of the focusd distraction blocker.

This file shallowly embeds the Python sources of the focusd repository:

* `src/focusd/sync_file.py` — the hashed, temp-file based file writer;
* `src/focusd/publish.py` — the systemd decoy-replica publisher;
* `src/archive/chrome/chrome_focus.py` — the CLI with the disable gate
  (quote typing with paste detection) and daemon lifecycle management;
* `src/archive/chrome/daemon.py` — the policy-file watch/restore handlers.

Effectful Python code is embedded as pure functions that return explicit
operation traces; the ambient operating system (existing files, pid
liveness, queued terminal input) is passed in as explicit parameters.
-/

/- ### String and path utilities -/

/-- Python's `os.path.join(a, b)` for a relative `b`: inserts a slash
unless `a` already ends with one. -/
def pathJoin (a b : String) : String :=
  if a.data.getLastD '\x00' == '/' then a ++ b else a ++ "/" ++ b

/-- Split a character list at every occurrence of `sep`, keeping empty
pieces — the semantics of Python's `str.split` with a one-character
separator. -/
def splitCharList (sep : Char) : List Char → List (List Char)
  | [] => [[]]
  | c :: rest =>
    match splitCharList sep rest with
    | [] => [[]]
    | g :: gs => if c == sep then [] :: g :: gs else (c :: g) :: gs

/-- Split a string at every occurrence of the character `sep`. -/
def splitStr (sep : Char) (s : String) : List String :=
  (splitCharList sep s.data).map String.mk

/-- Python's `str(Path(p).parent)`: the path with its last component removed. -/
def parentDir (p : String) : String :=
  String.intercalate "/" ((splitStr '/' p).dropLast)

/-- Python's `os.path.basename(p)`: the last slash-separated component. -/
def basename (p : String) : String :=
  ((splitStr '/' p).getLastD "")

/-- Python's `s.split(".")[0]`: everything before the first dot. -/
def splitDotHead (s : String) : String :=
  ((splitStr '.' s).headD "")

/-- ASCII whitespace recognised by Python's `str.strip()`. -/
def isSpaceChar (c : Char) : Bool :=
  c == ' ' || c == '\t' || c == '\n' || c == '\r' || c == '\x0b' || c == '\x0c'

/-- Python's `s.strip()` restricted to ASCII whitespace. -/
def pyStrip (s : String) : String :=
  String.mk (((s.data.dropWhile isSpaceChar).reverse.dropWhile isSpaceChar).reverse)

/-- Code-point lexicographic comparison of character lists; this is the
order Python uses to sort lists of strings. -/
def charListLe : List Char → List Char → Bool
  | [], _ => true
  | _ :: _, [] => false
  | a :: as, b :: bs =>
    if a.toNat < b.toNat then true
    else if b.toNat < a.toNat then false
    else charListLe as bs

/-- Python's string order `a <= b` (code-point lexicographic), as a relation. -/
def StrLe (a b : String) : Prop := charListLe a.data b.data = true

instance : DecidableRel StrLe := fun a b =>
  inferInstanceAs (Decidable (charListLe a.data b.data = true))

theorem charListLe_total : ∀ as bs, charListLe as bs = true ∨ charListLe bs as = true := by
  intro as
  induction as with
  | nil => intro bs; left; rfl
  | cons a as ih =>
    intro bs
    cases bs with
    | nil => right; rfl
    | cons b bs =>
      simp only [charListLe]
      rcases Nat.lt_trichotomy a.toNat b.toNat with h | h | h
      · left; simp [h]
      · have h1 : ¬ a.toNat < b.toNat := by omega
        have h2 : ¬ b.toNat < a.toNat := by omega
        simp only [h1, h2, if_false, if_true, ite_false, ite_true]
        simpa [h1, h2] using ih bs
      · right; simp [h]

theorem charListLe_trans :
    ∀ as bs cs, charListLe as bs = true → charListLe bs cs = true →
      charListLe as cs = true := by
  intro as
  induction as with
  | nil => intro bs cs _ _; rfl
  | cons a as ih =>
    intro bs cs h1 h2
    cases bs with
    | nil => simp [charListLe] at h1
    | cons b bs =>
      cases cs with
      | nil => simp [charListLe] at h2
      | cons c cs =>
        simp only [charListLe] at h1 h2 ⊢
        rcases Nat.lt_trichotomy a.toNat b.toNat with hab | hab | hab
        · rcases Nat.lt_trichotomy b.toNat c.toNat with hbc | hbc | hbc
          · simp [show a.toNat < c.toNat from by omega]
          · simp [show a.toNat < c.toNat from by omega]
          · simp [show ¬ b.toNat < c.toNat from by omega, hbc] at h2
        · rcases Nat.lt_trichotomy b.toNat c.toNat with hbc | hbc | hbc
          · simp [show a.toNat < c.toNat from by omega]
          · have hac1 : ¬ a.toNat < c.toNat := by omega
            have hac2 : ¬ c.toNat < a.toNat := by omega
            have hab1 : ¬ a.toNat < b.toNat := by omega
            have hab2 : ¬ b.toNat < a.toNat := by omega
            have hbc1 : ¬ b.toNat < c.toNat := by omega
            have hbc2 : ¬ c.toNat < b.toNat := by omega
            simp only [hab1, hab2, if_false, ite_false] at h1
            simp only [hbc1, hbc2, if_false, ite_false] at h2
            simp only [hac1, hac2, if_false, ite_false]
            exact ih bs cs h1 h2
          · simp [show ¬ b.toNat < c.toNat from by omega, hbc] at h2
        · simp [show ¬ a.toNat < b.toNat from by omega, hab] at h1

instance : IsTotal String StrLe := ⟨fun a b => charListLe_total a.data b.data⟩

instance : IsTrans String StrLe :=
  ⟨fun a b c => charListLe_trans a.data b.data c.data⟩

/-- Python's `sorted(set(l))` (also `list(set(l))` followed by `.sort()`):
the distinct elements of `l` in ascending string order. -/
def sortDedup (l : List String) : List String :=
  List.insertionSort StrLe l.dedup

theorem sortDedup_perm_dedup (l : List String) : (sortDedup l).Perm l.dedup :=
  List.perm_insertionSort StrLe l.dedup

theorem sortDedup_nodup (l : List String) : (sortDedup l).Nodup :=
  (sortDedup_perm_dedup l).nodup_iff.mpr l.nodup_dedup

theorem sortDedup_sorted (l : List String) : (sortDedup l).Sorted StrLe :=
  List.sorted_insertionSort StrLe l.dedup

theorem mem_sortDedup {x : String} {l : List String} : x ∈ sortDedup l ↔ x ∈ l := by
  rw [(sortDedup_perm_dedup l).mem_iff, List.mem_dedup]

theorem sortDedup_length (l : List String) : (sortDedup l).length = l.toFinset.card := by
  rw [(sortDedup_perm_dedup l).length_eq, List.card_toFinset]

/- ### PolicyStateStore: `sync` from src/focusd/sync_file.py -/

/-- The file-system environment `sync` interacts with: the existing files
(path to byte content), the filesystem id holding each path, and the
filesystem id of `tempfile.mkstemp`'s default temporary directory. -/
structure FileSys where
  files : List (String × String)
  fsid : String → Nat
  tmpfsid : Nat

/-- Content of the file at `p`, if one exists. -/
def FileSys.get (s : FileSys) (p : String) : Option String :=
  (s.files.find? (fun kv => kv.1 == p)).map Prod.snd

/-- Overwrite (or create) the file at `p` with content `c`. -/
def FileSys.set (s : FileSys) (p c : String) : FileSys :=
  ⟨(p, c) :: s.files.filter (fun kv => !(kv.1 == p)), s.fsid, s.tmpfsid⟩

/-- The observable filesystem operations `sync` performs, in order.
`mkstempWrite` is `tempfile.mkstemp()` plus writing the content into the
temporary file; the replacement step is `shutil.move`, which is an atomic
`os.rename` when source and target share a filesystem and degrades to a
copy-then-delete otherwise. -/
inductive SyncOp
  | mkstempWrite (fsid : Nat) (content : String)
  | mkdirParents (dir : String)
  | atomicRename (target : String)
  | copyReplace (target : String)
  | chmod (target : String) (mode : Nat)
deriving DecidableEq, Repr

/-- Whether `sync` reported "same hash, skip" or performed the write. -/
inductive SyncResult
  | skipped
  | wrote
deriving DecidableEq, Repr

/-- MD5 hex digest, modelled as an ideal (collision-free) hash: two digests
are equal exactly when the hashed bytes are equal. -/
def md5hex (s : String) : String := s

/-- `sync(file_content, file_path)` from src/focusd/sync_file.py: skip when
an existing file has the same content hash; otherwise write a temporary
file in the default temp directory, `shutil.move` it over the target and
`chmod` the target to `0o644`. Returns the reported result, the updated
file system and the trace of operations performed. -/
def sync (fileContent filePath : String) (s : FileSys) :
    SyncResult × FileSys × List SyncOp :=
  match s.get filePath with
  | some fileBytes =>
    if md5hex fileContent == md5hex fileBytes then
      (.skipped, s, [])
    else
      (.wrote, s.set filePath fileContent,
        [.mkstempWrite s.tmpfsid fileContent,
         .mkdirParents (parentDir filePath),
         if s.tmpfsid == s.fsid filePath then .atomicRename filePath
         else .copyReplace filePath,
         .chmod filePath 420])
  | none =>
    (.wrote, s.set filePath fileContent,
      [.mkstempWrite s.tmpfsid fileContent,
       .mkdirParents (parentDir filePath),
       if s.tmpfsid == s.fsid filePath then .atomicRename filePath
       else .copyReplace filePath,
       .chmod filePath 420])

/-- Operations that create file content on disk (the temp-file write). -/
def isWriteOp : SyncOp → Bool
  | .mkstempWrite _ _ => true
  | _ => false

/-- Number of filesystem writes in a trace. -/
def writeCount (ops : List SyncOp) : Nat :=
  ops.countP isWriteOp

/- ### StealthPublisher: src/focusd/publish.py

The ambient host state is passed explicitly: `names` is the line list read
from `fake_systemd_names.csv`, and `fsFiles` is the list of file paths
currently existing in the systemd unit folder (the universe consulted both
by `os.path.exists` on candidate unit paths and by
`glob.glob(folder + "*.service")`). Python's `random.shuffle` is passed in
as an arbitrary `shuffle` function; theorems assume only that it permutes
its input. -/

/-- `system_service_file_folder` from src/focusd/publish.py. -/
def system_service_file_folder : String := "/lib/systemd/system/"

/-- `bin_dst_folder` from src/focusd/publish.py. -/
def bin_dst_folder : String := "/usr/bin"

/-- `get_fake_service_paths()`: read the committed fake-name lines, strip
each, append `.service`, join with the unit folder, deduplicate and sort. -/
def get_fake_service_paths (names : List String) : List String :=
  sortDedup (names.map (fun n => pathJoin system_service_file_folder (pyStrip n ++ ".service")))

/-- `check_if_fake_exist()`: raise `FileExistsError` as soon as any
candidate unit path already exists on the host. -/
def check_if_fake_exist (fsFiles names : List String) : Except String Unit :=
  match (get_fake_service_paths names).find? (fun p => decide (p ∈ fsFiles)) with
  | some p => .error ("file " ++ p ++ " already exist, choose another for fake name")
  | none => .ok ()

/-- `get_fake_systemd_service_from_fs()`: the candidate unit paths that
currently exist in the unit folder (*.service glob intersected with the
candidate set), deduplicated and sorted. -/
def get_fake_systemd_service_from_fs (fsFiles names : List String) : List String :=
  sortDedup ((get_fake_service_paths names).filter (fun p => decide (p ∈ fsFiles)))

/-- `get_target_system_service_paths(count)`: the currently deployed
candidate units, extended — when fewer than `count` are deployed — by a
random selection of unused candidate names, deduplicated and sorted. -/
def get_target_system_service_paths (shuffle : List String → List String)
    (fsFiles names : List String) (count : Int) : List String :=
  let fake_service_paths := get_fake_service_paths names
  let systemd_service_paths_fs := get_fake_systemd_service_from_fs fsFiles names
  let len_current : Int := (systemd_service_paths_fs.dedup.length : Int)
  let extra : List String :=
    if len_current < count then
      (shuffle (fake_service_paths.filter
        (fun p => decide (p ∉ systemd_service_paths_fs)))).take (count - len_current).toNat
    else []
  sortDedup (systemd_service_paths_fs ++ extra)

/-- Modelled from the spec: the Jinja2 `service_template` lives in
src/focusd/templates.py, which is not among the sources; the spec calls its
rendering a pure string substitution of the replica name into a fixed
service-unit body referencing the replica's execution path. -/
def renderServiceUnit (name : String) : String :=
  "[Unit]\nDescription=" ++ name ++ "\n[Service]\nExecStart=/usr/bin/" ++ name ++ "\n"

/-- The observable operations `publish` performs, in program order. -/
inductive PublishOp
  | syncUnit (path content : String)
  | systemctlStop (unit : String)
  | copyBinary (src dst : String)
  | daemonReload
  | systemctlStart (unit : String)
  | systemctlEnable (unit : String)
deriving DecidableEq, Repr

/-- `publish(bin_path, count)` from src/focusd/publish.py: compute the
target unit paths, then for each one sync the rendered unit file, stop the
service and copy the binary; afterwards reload systemd once and start and
enable every target service. There is no precondition pass: the function
unconditionally proceeds to the per-unit writes. -/
def publish (shuffle : List String → List String) (fsFiles names : List String)
    (bin_path : String) (count : Int) : List PublishOp :=
  let expected := get_target_system_service_paths shuffle fsFiles names count
  (expected.map (fun service_path =>
    let file_name := basename service_path
    let file_name_no_ext := splitDotHead file_name
    [PublishOp.syncUnit service_path (renderServiceUnit file_name_no_ext),
     PublishOp.systemctlStop file_name,
     PublishOp.copyBinary bin_path (pathJoin bin_dst_folder file_name_no_ext)])).flatten
  ++ [PublishOp.daemonReload]
  ++ (expected.map (fun service_path =>
    [PublishOp.systemctlStart (basename service_path),
     PublishOp.systemctlEnable (basename service_path)])).flatten

/- ### DisableGate: `read_quote_no_paste` and `off` from
src/archive/chrome/chrome_focus.py

Terminal input in raw mode is modelled as a list of pairs: the character
delivered by `sys.stdin.read(1)` together with the result of the
`select.select([sys.stdin], [], [], 0.0)` probe taken right after that
read (`true` when further input is already queued with zero wait). -/

/-- Terminal outcomes of the disable gate's typing session. -/
inductive GateOutcome
  | matched
  | mismatched
  | pasteDetected
  | cancelled
deriving DecidableEq, Repr

/-- Python's `str.isprintable()` restricted to ASCII: every character from
space to tilde. -/
def isPrintableChar (c : Char) : Bool :=
  0x20 ≤ c.toNat && c.toNat ≤ 0x7e

/-- The raw-mode character loop of `read_quote_no_paste`: after each read,
queued input means paste; Ctrl+C cancels; backspace drops the last buffered
character; Enter ends collection and triggers the exact comparison;
printable characters (and space) are buffered; anything else is ignored.
Returns `none` when the input list is exhausted without a terminal outcome
(the real loop would block on the next read). -/
def readLoop (expected_quote : String) (typed : List Char) :
    List (Char × Bool) → Option GateOutcome
  | [] => none
  | (char, moreQueued) :: rest =>
    if moreQueued then some .pasteDetected
    else if char == '\x03' then some .cancelled
    else if char == '\x7f' || char == '\x08' then readLoop expected_quote typed.dropLast rest
    else if char == '\r' || char == '\n' then
      some (if String.mk typed == expected_quote then .matched else .mismatched)
    else if isPrintableChar char || char == ' ' then
      readLoop expected_quote (typed ++ [char]) rest
    else readLoop expected_quote typed rest

/-- The boolean `read_quote_no_paste` actually returns: `True` exactly for
an exact match. -/
def gateAuthorizes : GateOutcome → Bool
  | .matched => true
  | _ => false

/-- `read_quote_no_paste(expected_quote)`: on a termios-capable platform
run the raw-mode loop on the queued terminal input; otherwise print that
paste detection is unavailable and compare the stripped buffered line.
Returns the boolean result (if the session terminates) and the notices
printed before reading. -/
def read_quote_no_paste (hasTermios : Bool) (expected_quote : String)
    (rawInput : List (Char × Bool)) (bufferedLine : String) :
    Option Bool × List String :=
  if hasTermios then
    ((readLoop expected_quote [] rawInput).map gateAuthorizes,
     ["Type the quote character by character:"])
  else
    (some (pyStrip bufferedLine == expected_quote),
     ["(Copy/paste detection not available on this platform)"])

/-- The state-changing effects of one `off` invocation:
whether the out-of-range-duration error was reported, whether
`stop_daemon()` was called, whether `remove_chrome_policy()` was called,
and whether a timed automatic re-enable was scheduled. -/
structure OffEffects where
  durationRejected : Bool
  stoppedDaemon : Bool
  removedPolicy : Bool
  scheduledReEnable : Bool
deriving DecidableEq, Repr

/-- `off(duration)` from src/archive/chrome/chrome_focus.py, parametrised
by the boolean the quote gate returned: reject a duration outside 1..60
before anything else; return untouched unless the gate authorized; on
success stop the daemon, remove the policy, and (for a truthy duration)
sleep and re-enable. -/
def off (duration : Option Int) (gateOk : Bool) : OffEffects :=
  let proceed : OffEffects :=
    if gateOk then
      ⟨false, true, true,
        match duration with
        | some n => decide (n ≠ 0)
        | none => false⟩
    else ⟨false, false, false, false⟩
  match duration with
  | some n => if n < 1 ∨ 60 < n then ⟨true, false, false, false⟩ else proceed
  | none => proceed

/- ### Daemon lifecycle: `start_daemon` from
src/archive/chrome/chrome_focus.py -/

/-- The host state `start_daemon` consults: the pid recorded in the lock
file (when the lock file exists), pid liveness as answered by
`psutil.pid_exists`, and the pid `subprocess.Popen` will hand out for a
newly spawned daemon. -/
structure StartEnv where
  lockPid : Option Nat
  pidAlive : Nat → Bool
  spawnedPid : Nat

/-- What `start_daemon` reported. -/
inductive StartAction
  | alreadyRunning
  | spawned (pid : Nat)
deriving DecidableEq, Repr

/-- `start_daemon()`: when a lock file exists and its recorded pid is
alive, report "already running" and change nothing; otherwise spawn the
detached watcher and write its pid to the lock file. Returns the action
taken and the resulting lock-file content. -/
def start_daemon (env : StartEnv) : StartAction × Option Nat :=
  match env.lockPid with
  | some pid =>
    if env.pidAlive pid then (.alreadyRunning, some pid)
    else (.spawned env.spawnedPid, some env.spawnedPid)
  | none => (.spawned env.spawnedPid, some env.spawnedPid)

/- ### ComplianceDaemon handlers: src/archive/chrome/daemon.py -/

/-- The observable actions of the watcher's event handlers. -/
inductive DaemonOp
  | logMsg (msg : String)
  | sleepMs (ms : Nat)
  | restorePolicy
deriving DecidableEq, Repr

/-- `ChromePolicyWatcher.on_deleted`: on deletion of the tracked policy
file, log, sleep 0.5 s and rewrite the policy via `create_chrome_policy`.
The restore attempt (whose success or failure the ambient environment
decides) is *not* guarded: its exception escapes the handler, which the
second component records. -/
def on_deleted (policy_file src_path : String) (restore : Except String Unit) :
    List DaemonOp × Option String :=
  if src_path == policy_file then
    match restore with
    | .ok _ =>
      ([.logMsg "Policy file deleted, restoring...", .sleepMs 500, .restorePolicy,
        .logMsg "Policy file restored"], none)
    | .error e => ([.logMsg "Policy file deleted, restoring...", .sleepMs 500], some e)
  else ([], none)

/-- `ChromePolicyWatcher.on_modified`: on modification of the tracked
policy file, read the new content (`readResult`; reading may itself fail);
when the stripped content is empty or `"{}"`, log and rewrite the policy.
The entire body sits in a `try/except Exception: pass`, so no exception
ever escapes and a failure produces no log of its own. -/
def on_modified (policy_file src_path : String) (readResult : Except String String)
    (restore : Except String Unit) : List DaemonOp × Option String :=
  if src_path == policy_file then
    match readResult with
    | .error _ => ([], none)
    | .ok raw =>
      let content := pyStrip raw
      if content == "" || content == "\x7b\x7d" then
        match restore with
        | .ok _ =>
          ([.logMsg "Policy file cleared, restoring...", .restorePolicy,
            .logMsg "Policy file restored"], none)
        | .error _ => ([.logMsg "Policy file cleared, restoring..."], none)
      else ([], none)
  else ([], none)

/- ### Helper lemmas -/

theorem FileSys.get_set (s : FileSys) (p c : String) : (s.set p c).get p = some c := by
  simp [FileSys.get, FileSys.set, List.find?]

theorem off_gate_false (d : Option Int) :
    (off d false).stoppedDaemon = false ∧ (off d false).removedPolicy = false := by
  cases d with
  | none => simp [off]
  | some n =>
    by_cases h : n < 1 ∨ 60 < n <;> simp [off, h]

theorem sync_eq_write (content path : String) (s : FileSys)
    (h : (sync content path s).1 = SyncResult.wrote) :
    sync content path s =
      (SyncResult.wrote, s.set path content,
        [SyncOp.mkstempWrite s.tmpfsid content,
         SyncOp.mkdirParents (parentDir path),
         if s.tmpfsid == s.fsid path then SyncOp.atomicRename path
         else SyncOp.copyReplace path,
         SyncOp.chmod path 420]) := by
  cases hget : s.get path with
  | none => simp [sync, hget]
  | some existing =>
    by_cases heq : (md5hex content == md5hex existing) = true
    · exfalso
      have hs : sync content path s = (SyncResult.skipped, s, []) := by
        simp [sync, hget, heq]
      rw [hs] at h
      simp at h
    · simp [sync, hget, heq]

/- ### Claim theorems -/

/-- Claim C3: the claim states that every write performed by `sync` puts
the temporary file on the same filesystem as the target and replaces the
target atomically. This is false: `tempfile.mkstemp()` uses the default
temporary directory, and when that directory and the target live on
different filesystems `shutil.move` degrades to a non-atomic copy. The
concrete refutation uses a host whose temp directory is filesystem `0`
while the target path lives on filesystem `1`. -/
theorem C3_sync_counterexample :
    ¬ (∀ (content path : String) (s : FileSys),
        (sync content path s).2.2 ≠ [] →
        SyncOp.mkstempWrite (s.fsid path) content ∈ (sync content path s).2.2 ∧
        SyncOp.copyReplace path ∉ (sync content path s).2.2 ∧
        SyncOp.chmod path 420 ∈ (sync content path s).2.2) := by
  intro h
  have hc := h "x" "/etc/hosts" ⟨[], fun _ => 1, 0⟩ (by decide)
  exact absurd hc.2.1 (by decide)

/-- Claim C3 (amended): a write performed by `sync` first writes the
content to a temporary file in the default temporary directory's
filesystem, then replaces the target with `shutil.move` — an atomic rename
exactly when the temporary directory and the target share a filesystem —
and finally sets the target's permissions to world-readable `0o644`;
afterwards the target holds the full content. -/
theorem C3_sync_write_trace (content path : String) (s : FileSys)
    (h : (sync content path s).1 = SyncResult.wrote) :
    (sync content path s).2.2 =
      [SyncOp.mkstempWrite s.tmpfsid content,
       SyncOp.mkdirParents (parentDir path),
       if s.tmpfsid == s.fsid path then SyncOp.atomicRename path
       else SyncOp.copyReplace path,
       SyncOp.chmod path 420] ∧
    (SyncOp.atomicRename path ∈ (sync content path s).2.2 ↔ s.tmpfsid = s.fsid path) ∧
    (sync content path s).2.1.get path = some content := by
  rw [sync_eq_write content path s h]
  refine ⟨rfl, ?_, FileSys.get_set s path content⟩
  by_cases hfs : s.tmpfsid = s.fsid path
  · simp [hfs]
  · simp [hfs, beq_eq_false_iff_ne.mpr hfs]

/-- Witness for the amended C3 theorem at a concrete input: an empty
filesystem whose temporary directory shares filesystem `0` with the
target. -/
theorem C3_sync_write_trace_witness :
    (sync "x" "/etc/hosts" ⟨[], fun _ => 0, 0⟩).1 = SyncResult.wrote ∧
    ((sync "x" "/etc/hosts" ⟨[], fun _ => 0, 0⟩).2.2 =
      [SyncOp.mkstempWrite 0 "x",
       SyncOp.mkdirParents (parentDir "/etc/hosts"),
       if (0 : Nat) == 0 then SyncOp.atomicRename "/etc/hosts"
       else SyncOp.copyReplace "/etc/hosts",
       SyncOp.chmod "/etc/hosts" 420] ∧
     (SyncOp.atomicRename "/etc/hosts" ∈ (sync "x" "/etc/hosts" ⟨[], fun _ => 0, 0⟩).2.2 ↔
       (0 : Nat) = 0) ∧
     (sync "x" "/etc/hosts" ⟨[], fun _ => 0, 0⟩).2.1.get "/etc/hosts" = some "x") :=
  ⟨by decide, C3_sync_write_trace "x" "/etc/hosts" ⟨[], fun _ => 0, 0⟩ (by decide)⟩

theorem sync_skip (content path : String) (t : FileSys)
    (ht : t.get path = some content) :
    sync content path t = (SyncResult.skipped, t, []) := by
  simp [sync, ht, md5hex]

theorem sync_cases (content path : String) (s : FileSys) :
    (s.get path = some content ∧ sync content path s = (SyncResult.skipped, s, [])) ∨
    (s.get path ≠ some content ∧ sync content path s =
      (SyncResult.wrote, s.set path content,
        [SyncOp.mkstempWrite s.tmpfsid content,
         SyncOp.mkdirParents (parentDir path),
         if s.tmpfsid == s.fsid path then SyncOp.atomicRename path
         else SyncOp.copyReplace path,
         SyncOp.chmod path 420])) := by
  cases hget : s.get path with
  | none =>
    right
    exact ⟨by simp, by simp [sync, hget]⟩
  | some existing =>
    by_cases heq : existing = content
    · subst heq
      left
      exact ⟨rfl, sync_skip existing path s hget⟩
    · right
      have hb : (md5hex content == md5hex existing) = false := by
        simp [md5hex]
        exact fun hc => heq hc.symm
      exact ⟨by simp [heq], by simp [sync, hget, hb]⟩

/-- Claim C4: when a file already exists at the path whose content hash
equals the hash of the new content, `sync` performs no filesystem write
and reports a skip; consequently the second of two identical `sync` calls
is always a no-op, the pair performs at most one filesystem write, and
exactly one when the path did not already hold the content. -/
theorem C4_sync_idempotent (content path : String) (s : FileSys) :
    (∀ c, s.get path = some c → md5hex c = md5hex content →
      sync content path s = (SyncResult.skipped, s, [])) ∧
    sync content path ((sync content path s).2.1) =
      (SyncResult.skipped, (sync content path s).2.1, []) ∧
    writeCount (sync content path s).2.2 +
      writeCount (sync content path ((sync content path s).2.1)).2.2 ≤ 1 ∧
    (s.get path ≠ some content →
      writeCount (sync content path s).2.2 +
        writeCount (sync content path ((sync content path s).2.1)).2.2 = 1) := by
  rcases sync_cases content path s with ⟨hget, hs⟩ | ⟨hget, hs⟩
  · have hafter : (sync content path s).2.1.get path = some content := by
      rw [hs]; exact hget
    have h2 : sync content path ((sync content path s).2.1) =
        (SyncResult.skipped, (sync content path s).2.1, []) :=
      sync_skip content path _ hafter
    have w1 : writeCount (sync content path s).2.2 = 0 := by
      rw [hs]; rfl
    have w2 : writeCount (sync content path ((sync content path s).2.1)).2.2 = 0 := by
      rw [h2]; rfl
    refine ⟨fun c _ _ => hs, h2, ?_, ?_⟩
    · rw [w1, w2]; omega
    · intro hne; exact absurd hget hne
  · have hafter : (sync content path s).2.1.get path = some content := by
      rw [hs]; exact FileSys.get_set s path content
    have h2 : sync content path ((sync content path s).2.1) =
        (SyncResult.skipped, (sync content path s).2.1, []) :=
      sync_skip content path _ hafter
    have w1 : writeCount (sync content path s).2.2 = 1 := by
      rw [hs]
      by_cases hfs : s.tmpfsid = s.fsid path <;>
        simp [writeCount, isWriteOp, hfs, List.countP_cons]
    have w2 : writeCount (sync content path ((sync content path s).2.1)).2.2 = 0 := by
      rw [h2]; rfl
    refine ⟨?_, h2, ?_, ?_⟩
    · intro c hc hm
      have hm2 : c = content := hm
      subst hm2
      exact absurd hc hget
    · rw [w1, w2]
    · intro _; rw [w1, w2]

theorem C4_sync_idempotent_witness :
    (∀ c, FileSys.get ⟨[], fun _ => 0, 0⟩ "/etc/hosts" = some c →
      md5hex c = md5hex "x" →
      sync "x" "/etc/hosts" ⟨[], fun _ => 0, 0⟩ =
        (SyncResult.skipped, (⟨[], fun _ => 0, 0⟩ : FileSys), [])) ∧
    sync "x" "/etc/hosts" ((sync "x" "/etc/hosts" ⟨[], fun _ => 0, 0⟩).2.1) =
      (SyncResult.skipped, (sync "x" "/etc/hosts" ⟨[], fun _ => 0, 0⟩).2.1, []) ∧
    writeCount (sync "x" "/etc/hosts" ⟨[], fun _ => 0, 0⟩).2.2 +
      writeCount (sync "x" "/etc/hosts"
        ((sync "x" "/etc/hosts" ⟨[], fun _ => 0, 0⟩).2.1)).2.2 ≤ 1 ∧
    (FileSys.get ⟨[], fun _ => 0, 0⟩ "/etc/hosts" ≠ some "x" →
      writeCount (sync "x" "/etc/hosts" ⟨[], fun _ => 0, 0⟩).2.2 +
        writeCount (sync "x" "/etc/hosts"
          ((sync "x" "/etc/hosts" ⟨[], fun _ => 0, 0⟩).2.1)).2.2 = 1) :=
  C4_sync_idempotent "x" "/etc/hosts" ⟨[], fun _ => 0, 0⟩

/-- Claim C5: the claim states that a failing restore attempt is logged and
the event loop continues for both delete-triggered and modify-triggered
restores. This is false for the delete case: `on_deleted` does not guard
`create_chrome_policy`, so a restore failure (here a permission error on
the tracked policy path) escapes the handler instead of being caught. -/
theorem C5_restore_failure_counterexample :
    (on_deleted "/etc/opt/chrome/policies/managed/managed_policies.json"
        "/etc/opt/chrome/policies/managed/managed_policies.json"
        (Except.error "permission denied")).2 = some "permission denied" := by
  decide

/-- Claim C5 (amended): a modify-triggered restore failure is swallowed by
the handler's blanket `except` — nothing escapes, but the failure itself is
not logged (the only log emitted is the pre-restore notice) — while a
delete-triggered restore failure escapes the handler uncaught. -/
theorem C5_restore_failure_amended (p e : String)
    (readResult : Except String String) (restore : Except String Unit) :
    (on_modified p p readResult restore).2 = none ∧
    (on_modified p p (Except.ok "") (Except.error e)).1 =
      [DaemonOp.logMsg "Policy file cleared, restoring..."] ∧
    (on_deleted p p (Except.error e)).2 = some e := by
  refine ⟨?_, ?_, ?_⟩
  · unfold on_modified
    simp only [beq_self_eq_true, if_true]
    cases readResult with
    | error _ => rfl
    | ok raw =>
      dsimp only
      by_cases hc : (pyStrip raw == "" || pyStrip raw == "\x7b\x7d") = true
      · rw [if_pos hc]
        cases restore <;> rfl
      · rw [if_neg hc]
  · unfold on_modified
    simp only [beq_self_eq_true, if_true]
    rfl
  · unfold on_deleted
    simp only [beq_self_eq_true, if_true]

/-- Claim C6: a modify event on the tracked path whose new content strips
to the empty string or to the empty-object marker triggers the same
`create_chrome_policy` restore as the delete case, and a delete event of
the tracked path sleeps the fixed 0.5-second grace period and then
rewrites the policy document. -/
theorem C6_clear_and_delete_restore (p raw : String)
    (h : (pyStrip raw == "" || pyStrip raw == "\x7b\x7d") = true) :
    on_modified p p (Except.ok raw) (Except.ok ()) =
      ([DaemonOp.logMsg "Policy file cleared, restoring...", DaemonOp.restorePolicy,
        DaemonOp.logMsg "Policy file restored"], none) ∧
    on_deleted p p (Except.ok ()) =
      ([DaemonOp.logMsg "Policy file deleted, restoring...", DaemonOp.sleepMs 500,
        DaemonOp.restorePolicy, DaemonOp.logMsg "Policy file restored"], none) := by
  constructor
  · unfold on_modified
    simp only [beq_self_eq_true, if_true]
    rw [if_pos h]
  · unfold on_deleted
    simp only [beq_self_eq_true, if_true]

/-- Witness for C6: overwriting the tracked policy file with a whitespace-
padded empty object triggers the restore, and the delete handler sleeps
then restores. -/
theorem C6_clear_and_delete_restore_witness :
    (pyStrip " \x7b\x7d \n" == "" || pyStrip " \x7b\x7d \n" == "\x7b\x7d") = true ∧
    (on_modified "/etc/opt/chrome/policies/managed/managed_policies.json"
        "/etc/opt/chrome/policies/managed/managed_policies.json"
        (Except.ok " \x7b\x7d \n") (Except.ok ()) =
      ([DaemonOp.logMsg "Policy file cleared, restoring...", DaemonOp.restorePolicy,
        DaemonOp.logMsg "Policy file restored"], none) ∧
     on_deleted "/etc/opt/chrome/policies/managed/managed_policies.json"
        "/etc/opt/chrome/policies/managed/managed_policies.json" (Except.ok ()) =
      ([DaemonOp.logMsg "Policy file deleted, restoring...", DaemonOp.sleepMs 500,
        DaemonOp.restorePolicy, DaemonOp.logMsg "Policy file restored"], none)) :=
  ⟨by decide,
   C6_clear_and_delete_restore "/etc/opt/chrome/policies/managed/managed_policies.json"
     " \x7b\x7d \n" (by decide)⟩

/-- Claim C7: `start_daemon` treats a lock file recording a dead pid
exactly like a missing lock file — it spawns a new daemon and rewrites the
lock file with the new pid — and only a lock file recording a live pid
makes it a no-op that reports the daemon as already running. -/
theorem C7_stale_lock_recovery (env : StartEnv) (pid : Nat)
    (hlock : env.lockPid = some pid) :
    (env.pidAlive pid = false →
      start_daemon env = (.spawned env.spawnedPid, some env.spawnedPid) ∧
      start_daemon env = start_daemon ⟨none, env.pidAlive, env.spawnedPid⟩) ∧
    (env.pidAlive pid = true →
      start_daemon env = (.alreadyRunning, some pid)) := by
  constructor
  · intro hdead
    constructor <;> simp [start_daemon, hlock, hdead]
  · intro halive
    simp [start_daemon, hlock, halive]

/-- Witness for C7: a lock file recording dead pid 42 leads to a fresh
spawn with pid 777, identically to a missing lock file. -/
theorem C7_stale_lock_recovery_witness :
    StartEnv.lockPid ⟨some 42, fun _ => false, 777⟩ = some 42 ∧
    ((fun _ => false : Nat → Bool) 42 = false →
      start_daemon ⟨some 42, fun _ => false, 777⟩ = (.spawned 777, some 777) ∧
      start_daemon ⟨some 42, fun _ => false, 777⟩ =
        start_daemon ⟨none, fun _ => false, 777⟩) ∧
    ((fun _ => false : Nat → Bool) 42 = true →
      start_daemon ⟨some 42, fun _ => false, 777⟩ = (.alreadyRunning, some 42)) :=
  ⟨rfl,
   (C7_stale_lock_recovery ⟨some 42, fun _ => false, 777⟩ 42 rfl).1,
   (C7_stale_lock_recovery ⟨some 42, fun _ => false, 777⟩ 42 rfl).2⟩

/-- Claim C8: the `off` command rejects a `--duration` outside 1..60 with a
user-visible error and no change to daemon or policy state, and accepts
every duration in 1..60. -/
theorem C8_duration_bounds (n : Int) (g : Bool) :
    ((n < 1 ∨ 60 < n) →
      off (some n) g = ⟨true, false, false, false⟩) ∧
    (1 ≤ n → n ≤ 60 → (off (some n) g).durationRejected = false) := by
  constructor
  · intro h
    simp [off, h]
  · intro h1 h2
    have h : ¬ (n < 1 ∨ 60 < n) := by omega
    cases g <;> simp [off, h]

/-- Witness for C8: duration 61 is rejected without touching daemon or
policy state, and duration 30 passes validation. -/
theorem C8_duration_bounds_witness :
    off (some 61) false = ⟨true, false, false, false⟩ ∧
    (off (some 30) true).durationRejected = false :=
  ⟨(C8_duration_bounds 61 false).1 (by decide),
   (C8_duration_bounds 30 true).2 (by decide) (by decide)⟩

/-- Claim C9: the claim states that without raw terminal capability the
gate's only check is exact string equality of the typed line against the
quote. This is false: the fallback strips the typed line before comparing,
so the line with a trailing space below is accepted although it is not
exactly equal to the quote. -/
theorem C9_fallback_counterexample :
    (read_quote_no_paste false "q" [] "q ").1 = some true ∧
    ("q " == "q") = false := by
  decide

/-- Claim C9 (amended): without raw terminal capability the gate degrades
to a single buffered line read — the raw-mode input stream is never
consulted — whose only check is exact equality of the whitespace-stripped
typed line against the quote, and the unavailability of paste detection is
surfaced to the user. -/
theorem C9_fallback_amended (expected line : String)
    (raw raw2 : List (Char × Bool)) :
    (read_quote_no_paste false expected raw line).1 =
      some (pyStrip line == expected) ∧
    "(Copy/paste detection not available on this platform)" ∈
      (read_quote_no_paste false expected raw line).2 ∧
    read_quote_no_paste false expected raw line =
      read_quote_no_paste false expected raw2 line := by
  refine ⟨rfl, ?_, rfl⟩
  simp [read_quote_no_paste]

theorem readLoop_paste_detected (expected : String) :
    ∀ (pre : List (Char × Bool)) (typed : List Char) (c : Char)
      (rest : List (Char × Bool)),
      (∀ x ∈ pre, x.2 = false ∧ x.1 ≠ '\x03' ∧ x.1 ≠ '\r' ∧ x.1 ≠ '\n') →
      readLoop expected typed (pre ++ (c, true) :: rest) =
        some GateOutcome.pasteDetected := by
  intro pre
  induction pre with
  | nil =>
    intro typed c rest _
    simp [readLoop]
  | cons x pre ih =>
    intro typed c rest h
    obtain ⟨hq, h3, hr, hn⟩ := h x (List.mem_cons_self x pre)
    have hrest : ∀ y ∈ pre, y.2 = false ∧ y.1 ≠ '\x03' ∧ y.1 ≠ '\r' ∧ y.1 ≠ '\n' :=
      fun y hy => h y (List.mem_cons_of_mem x hy)
    obtain ⟨xc, xq⟩ := x
    simp only at hq h3 hr hn
    subst hq
    simp only [List.cons_append, readLoop, Bool.false_eq_true, if_false]
    rw [if_neg (by simp [h3])]
    by_cases hbs : (xc == '\x7f' || xc == '\x08') = true
    · rw [if_pos hbs]
      exact ih typed.dropLast c rest hrest
    · rw [if_neg hbs]
      rw [if_neg (by simp [hr, hn])]
      by_cases hpr : (isPrintableChar xc || xc == ' ') = true
      · rw [if_pos hpr]
        exact ih (typed ++ [xc]) c rest hrest
      · rw [if_neg hpr]
        exact ih typed c rest hrest

/-- Claim C2: in raw-character mode, if at the moment some character is
read further input is already queued with zero wait, the session ends in
the paste-detected outcome and `read_quote_no_paste` returns `False`,
regardless of what the queued text is; and for every terminal gate outcome
other than an exact match, `off` neither stops the daemon nor removes the
policy. -/
theorem C2_paste_detection_gates_off (expected line : String)
    (pre : List (Char × Bool)) (c : Char) (rest : List (Char × Bool))
    (d : Option Int) (o : GateOutcome)
    (hpre : ∀ x ∈ pre, x.2 = false ∧ x.1 ≠ '\x03' ∧ x.1 ≠ '\r' ∧ x.1 ≠ '\n')
    (ho : o ≠ GateOutcome.matched) :
    readLoop expected [] (pre ++ (c, true) :: rest) =
      some GateOutcome.pasteDetected ∧
    (read_quote_no_paste true expected (pre ++ (c, true) :: rest) line).1 =
      some false ∧
    (off d (gateAuthorizes o)).stoppedDaemon = false ∧
    (off d (gateAuthorizes o)).removedPolicy = false := by
  have h1 := readLoop_paste_detected expected pre [] c rest hpre
  have hg : gateAuthorizes o = false := by
    cases o <;> first | exact absurd rfl ho | rfl
  refine ⟨h1, ?_, ?_, ?_⟩
  · simp [read_quote_no_paste, h1, gateAuthorizes]
  · rw [hg]; exact (off_gate_false d).1
  · rw [hg]; exact (off_gate_false d).2

/-- Witness for C2: with the first character of the quote typed and a
burst of queued input behind the next read, the session ends in paste
detection, and an `off` run whose gate ended in paste detection touches
nothing. -/
theorem C2_paste_detection_gates_off_witness :
    (∀ x ∈ [('T', false)], x.2 = false ∧ x.1 ≠ '\x03' ∧ x.1 ≠ '\r' ∧ x.1 ≠ '\n') ∧
    GateOutcome.pasteDetected ≠ GateOutcome.matched ∧
    (readLoop "The obstacle is the way." [] ([('T', false)] ++ ('h', true) :: []) =
      some GateOutcome.pasteDetected ∧
    (read_quote_no_paste true "The obstacle is the way."
        ([('T', false)] ++ ('h', true) :: []) "").1 = some false ∧
    (off (some 5) (gateAuthorizes GateOutcome.pasteDetected)).stoppedDaemon = false ∧
    (off (some 5) (gateAuthorizes GateOutcome.pasteDetected)).removedPolicy = false) :=
  ⟨by decide, by decide,
   C2_paste_detection_gates_off "The obstacle is the way." "" [('T', false)] 'h' []
     (some 5) GateOutcome.pasteDetected (by decide) (by decide)⟩

/-- Claim C1: the claim states that `publish` aborts with a fatal
configuration error before modifying any service file whenever a candidate
replica name already exists as a foreign service on the host. The code
defines `check_if_fake_exist` for exactly this test, but `publish` never
invokes it: with candidate name `alpha` and a pre-existing unmanaged
`/lib/systemd/system/alpha.service`, the check would abort, yet `publish`
proceeds and syncs its own unit file over that very path (its return type
has no failure channel at all). -/
theorem C1_publish_skips_collision_check :
    check_if_fake_exist ["/lib/systemd/system/alpha.service"] ["alpha\n"] =
      Except.error
        "file /lib/systemd/system/alpha.service already exist, choose another for fake name" ∧
    PublishOp.syncUnit "/lib/systemd/system/alpha.service" (renderServiceUnit "alpha") ∈
      publish id ["/lib/systemd/system/alpha.service"] ["alpha\n"] "/bin/focusd" 1 :=
  ⟨by rfl, by decide⟩

theorem mem_get_fake_systemd_service_from_fs {fsFiles names : List String} {p : String} :
    p ∈ get_fake_systemd_service_from_fs fsFiles names ↔
      p ∈ get_fake_service_paths names ∧ p ∈ fsFiles := by
  rw [get_fake_systemd_service_from_fs, mem_sortDedup, List.mem_filter]
  simp

/-- Claim C10: for every replica count, the target set computed by
`get_target_system_service_paths` is a duplicate-free list sorted by name
containing every currently deployed managed replica path (so a count
smaller than the number deployed removes nothing), and its length is the
maximum of the deployed count and the minimum of the requested count and
the total number of candidate names. -/
theorem C10_target_replicas (shuffle : List String → List String)
    (hshuffle : ∀ l : List String, (shuffle l).Perm l)
    (fsFiles names : List String) (count : Int) :
    (get_target_system_service_paths shuffle fsFiles names count).Nodup ∧
    (get_target_system_service_paths shuffle fsFiles names count).Sorted StrLe ∧
    (∀ p ∈ get_fake_systemd_service_from_fs fsFiles names,
      p ∈ get_target_system_service_paths shuffle fsFiles names count) ∧
    ((get_target_system_service_paths shuffle fsFiles names count).length : Int) =
      max ((get_fake_systemd_service_from_fs fsFiles names).length : Int)
        (min count ((get_fake_service_paths names).length : Int)) := by
  set fake := get_fake_service_paths names with hfake
  set current := get_fake_systemd_service_from_fs fsFiles names with hcur
  set diff := fake.filter (fun p => decide (p ∉ current)) with hdiff
  set k := (count - (current.dedup.length : Int)).toNat with hk
  set extra := if ((current.dedup.length : Int)) < count then (shuffle diff).take k else []
    with hextra
  have htarget : get_target_system_service_paths shuffle fsFiles names count =
      sortDedup (current ++ extra) := rfl
  have hcurrent_nodup : current.Nodup := sortDedup_nodup _
  have hfake_nodup : fake.Nodup := sortDedup_nodup _
  have hdedup_self : current.dedup = current := List.dedup_eq_self.mpr hcurrent_nodup
  have hsub : current.toFinset ⊆ fake.toFinset := by
    intro p hp
    rw [List.mem_toFinset] at hp ⊢
    exact (mem_get_fake_systemd_service_from_fs.mp hp).1
  have hcurcard : current.toFinset.card = current.length :=
    List.toFinset_card_of_nodup hcurrent_nodup
  have hfakecard : fake.toFinset.card = fake.length :=
    List.toFinset_card_of_nodup hfake_nodup
  have hlenCF : current.length ≤ fake.length := by
    rw [← hcurcard, ← hfakecard]
    exact Finset.card_le_card hsub
  have hdiffmem : ∀ p, p ∈ diff ↔ p ∈ fake ∧ p ∉ current := by
    intro p
    rw [hdiff, List.mem_filter]
    simp
  have hextra_not_current : ∀ p ∈ extra, p ∉ current := by
    intro p hp
    rw [hextra] at hp
    split at hp
    · have hp2 : p ∈ shuffle diff := (List.take_sublist k (shuffle diff)).subset hp
      exact ((hdiffmem p).1 ((hshuffle diff).mem_iff.1 hp2)).2
    · exact absurd hp (List.not_mem_nil p)
  have hextra_nodup : extra.Nodup := by
    rw [hextra]
    split
    · exact ((List.take_sublist k (shuffle diff)).nodup
        ((hshuffle diff).nodup_iff.mpr (hfake_nodup.filter _)))
    · exact List.nodup_nil
  have hdisj : Disjoint current.toFinset extra.toFinset := by
    rw [Finset.disjoint_left]
    intro p hp hpe
    rw [List.mem_toFinset] at hp hpe
    exact hextra_not_current p hpe hp
  have hextracard : extra.toFinset.card = extra.length :=
    List.toFinset_card_of_nodup hextra_nodup
  have hlen : (get_target_system_service_paths shuffle fsFiles names count).length =
      current.length + extra.length := by
    rw [htarget, sortDedup_length, List.toFinset_append,
      Finset.card_union_of_disjoint hdisj, hcurcard, hextracard]
  refine ⟨?_, ?_, ?_, ?_⟩
  · rw [htarget]; exact sortDedup_nodup _
  · rw [htarget]; exact sortDedup_sorted _
  · intro p hp
    rw [htarget, mem_sortDedup]
    exact List.mem_append_left extra hp
  · have hdiffcard : diff.length = fake.length - current.length := by
      have hnodupd : diff.Nodup := hfake_nodup.filter _
      have hdf : diff.toFinset = fake.toFinset \ current.toFinset := by
        ext p
        rw [List.mem_toFinset, Finset.mem_sdiff, List.mem_toFinset, List.mem_toFinset]
        exact hdiffmem p
      rw [← List.toFinset_card_of_nodup hnodupd, hdf, Finset.card_sdiff hsub,
        hcurcard, hfakecard]
    rw [hlen]
    by_cases hlt : ((current.dedup.length : Int)) < count
    · have hextradef : extra = (shuffle diff).take k := by rw [hextra, if_pos hlt]
      have hextralen : extra.length = min k diff.length := by
        rw [hextradef, List.length_take, (hshuffle diff).length_eq]
      rw [hdedup_self] at hlt hk
      have hkint : (k : Int) = count - (current.length : Int) := by
        rw [hk]
        exact Int.toNat_of_nonneg (by omega)
      rw [hextralen, hdiffcard]
      push_cast [Nat.cast_min, Nat.cast_sub hlenCF]
      rw [hkint]
      omega
    · have hextradef : extra = [] := by rw [hextra, if_neg hlt]
      rw [hdedup_self] at hlt
      rw [hextradef]
      simp only [List.length_nil, Nat.add_zero]
      have h1 : (current.length : Int) ≤ (fake.length : Int) := by exact_mod_cast hlenCF
      omega

/-- Witness for C10 at a concrete host: candidates `a` and `b`, with `b`
already deployed, requesting two replicas and the identity shuffle. -/
theorem C10_target_replicas_witness :
    (get_target_system_service_paths id ["/lib/systemd/system/b.service"]
      ["a\n", "b\n"] 2).Nodup ∧
    (get_target_system_service_paths id ["/lib/systemd/system/b.service"]
      ["a\n", "b\n"] 2).Sorted StrLe ∧
    (∀ p ∈ get_fake_systemd_service_from_fs ["/lib/systemd/system/b.service"]
        ["a\n", "b\n"],
      p ∈ get_target_system_service_paths id ["/lib/systemd/system/b.service"]
        ["a\n", "b\n"] 2) ∧
    ((get_target_system_service_paths id ["/lib/systemd/system/b.service"]
        ["a\n", "b\n"] 2).length : Int) =
      max ((get_fake_systemd_service_from_fs ["/lib/systemd/system/b.service"]
          ["a\n", "b\n"]).length : Int)
        (min 2 ((get_fake_service_paths ["a\n", "b\n"]).length : Int)) :=
  C10_target_replicas id (fun l => List.Perm.refl l)
    ["/lib/systemd/system/b.service"] ["a\n", "b\n"] 2
